import Mathlib

/-!
Verification of the SpotLink parking backend (Go sources) against its
natural-language specification.  The Go data layer and the QR-code service
are shallowly embedded: SQL tables become lists of rows, `time.Time` becomes
`Int` (seconds), `uuid.UUID` becomes `Nat`, Go errors become an inductive
type that models `fmt.Errorf` wrapping and `errors.Is` unwrapping, and each
Go function becomes a pure Lean function from the old state to the new state
together with its result.
-/

namespace SpotLink

/-! ## Go error values

The data layer uses sentinel errors (`ErrRecordNotFound`, `ErrEditConflict`,
`ErrDuplicateLicensePlate`) plus `pq` unique-constraint violations, and the
service layer wraps errors with `fmt.Errorf("...: %w", err)`.  `errors.Is`
walks the wrap chain. -/
inductive GoError : Type where
  | recordNotFound
  | editConflict
  | duplicateLicensePlate
  | duplicateCode
  | plainMsg (s : String)
  | wrap (msg : String) (inner : GoError)
deriving DecidableEq, Repr, Inhabited

/-- Embedding of Go `errors.Is err target`: the target matches the error
itself or anything in its `%w` wrap chain. -/
def GoError.goIs : GoError → GoError → Bool
  | e@(.wrap _ inner), target => e == target || inner.goIs target
  | e, target => e == target

/-! ## Vehicle entity (`internal/data/vehicle.go`)

The Go struct `Vehicle`; `uuid.UUID` is modelled as `Nat` and `time.Time`
as `Int`. -/
structure Vehicle : Type where
  id : Nat
  userId : Nat
  licensePlate : String
  make : String
  model : String
  color : String
  vehicleType : String
  isDefault : Bool
  createdAt : Int
  updatedAt : Int
  version : Nat
deriving DecidableEq, Repr, Inhabited

/-- Row effect of `VehicleModel.UnsetDefaultForUser` on a single stored row:
rows of the user other than the given vehicle lose their default flag. -/
def unsetDefaultRow (userID exceptVehicleID : Nat) (o : Vehicle) : Vehicle :=
  if o.userId == userID && o.id != exceptVehicleID then
    { o with isDefault := false }
  else o

/-- Embedding of `VehicleModel.UnsetDefaultForUser`: the SQL statement
`UPDATE vehicles SET is_default = false WHERE user_id = $1 AND id != $2`. -/
def unsetDefaultForUser (table : List Vehicle) (userID exceptVehicleID : Nat) :
    List Vehicle :=
  table.map (unsetDefaultRow userID exceptVehicleID)

/-- Row effect of the `UPDATE vehicles` statement of `VehicleModel.Update` on a
single stored row: the row matching the `WHERE id = $7 AND version = $8` clause
receives the new field values, `updated_at = CURRENT_TIMESTAMP` (`now`) and
`version = version + 1`; every other row is untouched. -/
def vehicleUpdateRow (inp : Vehicle) (now : Int) (o : Vehicle) : Vehicle :=
  if o.id == inp.id && o.version == inp.version then
    { o with
        licensePlate := inp.licensePlate
        make := inp.make
        model := inp.model
        color := inp.color
        vehicleType := inp.vehicleType
        isDefault := inp.isDefault
        updatedAt := now
        version := o.version + 1 }
  else o

/-- Embedding of `VehicleModel.Update`.  The SQL statement is
`UPDATE vehicles SET license_plate = $1, ..., updated_at = CURRENT_TIMESTAMP,
version = version + 1 WHERE id = $7 AND version = $8 RETURNING updated_at,
version`.  `now` stands for `CURRENT_TIMESTAMP`.  Zero matched rows makes the
`Scan` fail with `sql.ErrNoRows`, mapped to `ErrEditConflict`; a new license
plate colliding with a different row violates the table's unique constraint
on `license_plate`, mapped to `ErrDuplicateLicensePlate`, and the statement
then changes nothing.  On success the Go code additionally runs
`UnsetDefaultForUser` when the updated vehicle is marked default.  The result
pair carries the table after the call and either the scanned
`(updated_at, version)` or the error. -/
def vehicleUpdate (table : List Vehicle) (inp : Vehicle) (now : Int) :
    List Vehicle × Except GoError (Int × Nat) :=
  let matched := table.filter fun r => r.id == inp.id && r.version == inp.version
  match matched with
  | [] => (table, .error .editConflict)
  | r :: _ =>
    if table.any fun o => o.id != inp.id && o.licensePlate == inp.licensePlate then
      (table, .error .duplicateLicensePlate)
    else
      let updated := table.map (vehicleUpdateRow inp now)
      let final := if inp.isDefault then unsetDefaultForUser updated inp.userId inp.id
                   else updated
      (final, .ok (now, r.version + 1))

/-! Concrete sample data used by witnesses and counterexamples. -/

/-- Sample stored vehicle, id 1, owned by user 1, version 1. -/
def vSampleA : Vehicle :=
  { id := 1, userId := 1, licensePlate := "AAA", make := "Toyota", model := "Corolla",
    color := "red", vehicleType := "car", isDefault := false,
    createdAt := 0, updatedAt := 0, version := 1 }

/-- Sample stored vehicle, id 2, owned by user 1, version 1. -/
def vSampleB : Vehicle :=
  { id := 2, userId := 1, licensePlate := "BBB", make := "Honda", model := "Civic",
    color := "blue", vehicleType := "car", isDefault := false,
    createdAt := 0, updatedAt := 0, version := 1 }

/-- Update input for vehicle 1 carrying a stale version (2 instead of the stored 1). -/
def vInputStale : Vehicle := { vSampleA with version := 2 }

/-- Update input for vehicle 1 with the current version but a license plate that
collides with vehicle 2's stored plate. -/
def vInputCollide : Vehicle := { vSampleA with licensePlate := "BBB" }

/-- Update input for vehicle 1 with the current version and a fresh color. -/
def vInputFresh : Vehicle := { vSampleA with color := "green" }

/-! ## User entity (`internal/data/users` model)

The Go struct `User`; the bcrypt password value is kept as an opaque string
since nothing in the verified flows inspects it. -/
structure User : Type where
  id : Nat
  email : String
  userName : String
  passwordHash : String
  firstName : Option String
  lastName : Option String
  mobileNumber : Option String
  avatarUrl : Option String
  role : String
  authType : String
  hasCompletedOnboarding : Bool
  activated : Bool
  version : Nat
  createdAt : Int
  updatedAt : Int
deriving DecidableEq, Repr, Inhabited

/-! ## QR-code entity (`internal/data/qrcode.go`) -/

/-- Go struct `UserProfile`: the user snapshot embedded in a QR payload. -/
structure UserProfile : Type where
  id : Nat
  userName : String
  firstName : Option String
  lastName : Option String
  mobileNumber : Option String
  email : String
deriving DecidableEq, Repr, Inhabited

/-- Go struct `VehicleData`: the vehicle snapshot embedded in a QR payload. -/
structure VehicleData : Type where
  id : Nat
  licensePlate : String
  make : String
  model : String
  color : String
  vehicleType : String
deriving DecidableEq, Repr, Inhabited

/-- Go struct `QRCodeInfo`: issuance metadata embedded in a QR payload. -/
structure QRCodeInfo : Type where
  code : String
  generatedAt : Int
  expiresAt : Int
  purpose : String
deriving DecidableEq, Repr, Inhabited

/-- Go struct `QRCodeData`: the full payload snapshot. -/
structure QRCodeData : Type where
  userProfile : UserProfile
  vehicle : VehicleData
  qrInfo : QRCodeInfo
deriving DecidableEq, Repr, Inhabited

/-- Go struct `QRCode`, a row of the `qr_codes` table.  The Go code stores
`json.Marshal` of a `QRCodeData` in the TEXT column `data` and reads it back
with `json.Unmarshal`; since the column is opaque to every SQL statement and
`Unmarshal` inverts `Marshal` on these structs, the embedding stores the
payload value itself. -/
structure QRCode : Type where
  id : Nat
  userId : Nat
  vehicleId : Nat
  code : String
  data : QRCodeData
  expiresAt : Int
  isActive : Bool
  createdAt : Int
  version : Nat
deriving DecidableEq, Repr, Inhabited

/-- The persistent store seen by the QR service: the three tables it touches. -/
structure DBState : Type where
  users : List User
  vehicles : List Vehicle
  qrCodes : List QRCode
deriving DecidableEq, Repr, Inhabited

/-- Modelled from the spec: `UserModal.Get` itself is not among the provided
source files (only `Insert`, `GetByEmail`, `Update`, `GetForToken` are); per
the spec every entity supports lookup by id that returns the stored row or a
not-found condition, exactly the shape of `VehicleModel.Get`. -/
def usersGet (users : List User) (id : Nat) : Except GoError User :=
  match users.find? (fun u => u.id == id) with
  | some u => .ok u
  | none => .error .recordNotFound

/-- Embedding of `VehicleModel.Get`: `SELECT ... FROM vehicles WHERE id = $1`,
with `sql.ErrNoRows` mapped to `ErrRecordNotFound`. -/
def vehiclesGet (table : List Vehicle) (id : Nat) : Except GoError Vehicle :=
  match table.find? (fun v => v.id == id) with
  | some v => .ok v
  | none => .error .recordNotFound

/-- Row effect of `QRCodeModel.DeactivateAllForUser` on a single stored row. -/
def deactivateRow (userID : Nat) (r : QRCode) : QRCode :=
  if r.userId == userID then { r with isActive := false } else r

/-- Embedding of `QRCodeModel.DeactivateAllForUser`: the SQL statement
`UPDATE qr_codes SET is_active = false WHERE user_id = $1`. -/
def deactivateAllForUser (table : List QRCode) (userID : Nat) : List QRCode :=
  table.map (deactivateRow userID)

/-- Embedding of `QRCodeModel.Insert`: `INSERT INTO qr_codes (user_id,
vehicle_id, code, data, expires_at, is_active) VALUES ... RETURNING id,
created_at, version`.  The table has `code VARCHAR(100) UNIQUE NOT NULL`, so
inserting a code equal to any stored row's code violates the constraint and
the statement fails; otherwise the database assigns `id` (modelled by the
`newId` parameter), `created_at = CURRENT_TIMESTAMP` (`now`) and
`version = 1`, which the `RETURNING` clause scans back into the record.  The
result is the new table together with the stored row. -/
def qrInsert (table : List QRCode) (row : QRCode) (newId : Nat) (now : Int) :
    Except GoError (List QRCode × QRCode) :=
  if table.any (fun r => r.code == row.code) then
    .error .duplicateCode
  else
    let stored := { row with id := newId, createdAt := now, version := 1 }
    .ok (table ++ [stored], stored)

/-- Embedding of `QRCodeModel.GetByCode`: `SELECT ... FROM qr_codes WHERE
code = $1 AND is_active = true AND expires_at > CURRENT_TIMESTAMP`, with
`sql.ErrNoRows` mapped to `ErrRecordNotFound`. -/
def qrGetByCode (table : List QRCode) (code : String) (now : Int) :
    Except GoError QRCode :=
  match table.find? (fun r => r.code == code && r.isActive && now < r.expiresAt) with
  | some r => .ok r
  | none => .error .recordNotFound

/-! ## URL-safe base64 (`encoding/base64.URLEncoding`) -/

/-- The 64-character URL-safe base64 alphabet used by Go's
`base64.URLEncoding`. -/
def base64UrlAlphabet : List Char :=
  "ABCDEFGHIJKLMNOPQRSTUVWXYZabcdefghijklmnopqrstuvwxyz0123456789-_".toList

/-- Alphabet lookup for a 6-bit index (indices produced by the encoder are
always below 64 for byte inputs). -/
def b64Char (i : Nat) : Char := base64UrlAlphabet.getD i 'A'

/-- Embedding of `base64.URLEncoding.EncodeToString`: bytes are consumed in
groups of three, each group yielding four alphabet characters; a trailing
group of one or two bytes is padded with `=`. -/
def base64UrlEncode : List Nat → List Char
  | [] => []
  | [b1] => [b64Char (b1 / 4), b64Char (b1 % 4 * 16), '=', '=']
  | [b1, b2] => [b64Char (b1 / 4), b64Char (b1 % 4 * 16 + b2 / 16), b64Char (b2 % 16 * 4), '=']
  | b1 :: b2 :: b3 :: rest =>
      b64Char (b1 / 4) :: b64Char (b1 % 4 * 16 + b2 / 16) ::
      b64Char (b2 % 16 * 4 + b3 / 64) :: b64Char (b3 % 64) :: base64UrlEncode rest

/-- Membership test for the URL-safe base64 alphabet, written as the character
ranges of RFC 4648's URL-safe alphabet. -/
def urlSafeChar (c : Char) : Bool :=
  ('A' ≤ c && c ≤ 'Z') || ('a' ≤ c && c ≤ 'z') || ('0' ≤ c && c ≤ '9') || c == '-' || c == '_'

/-- Embedding of `Service.generateUniqueCode`: 32 random bytes (the `bytes`
parameter stands for the `crypto/rand.Read` draw) are base64-url encoded and
the first 32 characters of the encoding are kept. -/
def generateUniqueCode (bytes : List Nat) : String :=
  String.mk ((base64UrlEncode bytes).take 32)

/-! ## Lexical path functions (`path/filepath` on a Unix separator) -/

/-- Splits a character list on `/`, keeping empty components, as
`strings.Split` would. -/
def splitSlash : List Char → List (List Char)
  | [] => [[]]
  | c :: rest =>
    match splitSlash rest with
    | [] => [[]]
    | g :: gs => if c == '/' then [] :: g :: gs else (c :: g) :: gs

/-- Embedding of Go `path/filepath.Clean` for slash-separated paths: empty and
`.` components are dropped, `..` removes the preceding component when one
exists, leading `..` components survive in relative paths and are dropped in
rooted ones, and an empty result becomes `.` (or `/` when rooted). -/
def goClean (path : String) : String :=
  if path = "" then "."
  else
    let rooted : Bool := match path.toList with
      | '/' :: _ => true
      | _ => false
    let parts := splitSlash path.toList
    let stack := parts.foldl (fun acc p =>
      if p = [] || p = ['.'] then acc
      else if p = ['.', '.'] then
        match acc with
        | [] => if rooted then [] else [['.', '.']]
        | top :: rest => if top = ['.', '.'] then p :: top :: rest else rest
      else p :: acc) ([] : List (List Char))
    let comps := stack.reverse
    if rooted then
      (if comps = [] then "/" else "/" ++ String.mk (List.intercalate ['/'] comps))
    else
      (if comps = [] then "." else String.mk (List.intercalate ['/'] comps))

/-- Embedding of Go `path/filepath.Base`: the empty path yields `.`, trailing
slashes are stripped, the part after the last remaining slash is returned, and
an all-slash path yields `/`. -/
def goBase (s : String) : String :=
  if s = "" then "."
  else
    let cs := (s.toList.reverse).dropWhile (fun c => c == '/')
    if cs = [] then "/"
    else String.mk ((cs.takeWhile (fun c => c != '/')).reverse)

/-- Embedding of Go `path/filepath.Join` on two elements: non-empty elements
are joined with `/` and the result is cleaned. -/
def goJoin (a b : String) : String :=
  if a = "" && b = "" then ""
  else if a = "" then goClean b
  else if b = "" then goClean a
  else goClean (a ++ "/" ++ b)

/-! ## QR service (`internal/qrcode`, source part_005) -/

/-- Go struct `QRCodeResponse` returned by `Service.GenerateQRCode`. -/
structure QRCodeResponse : Type where
  qrCode : QRCode
  qrData : QRCodeData
  imagePath : String
  imageUrl : String
  verifyUrl : String
deriving DecidableEq, Repr, Inhabited

/-- Embedding of `Service.GenerateQRCode`.  `storageDir` is the service's
storage directory; `bytes` stands for the single `crypto/rand.Read` draw made
by `generateUniqueCode`; `now` stands for `time.Now()`; `newId` is the row id
the database assigns on insert.  The expiry is
`time.Now().Add(time.Duration(expiryHours) * time.Hour)`, with time measured
in seconds.  The steps mirror the Go code in order: user lookup, vehicle
lookup, ownership check, code draw, payload build, `DeactivateAllForUser`,
`Insert`, image rendering (whose file write is modelled as succeeding) and
response construction.  Each failing step wraps its error exactly as the
`fmt.Errorf("...: %w", err)` calls do, and the state the call leaves behind is
returned alongside the result — in particular a failed `Insert` leaves the
deactivation already applied, since it was a separate committed statement. -/
def generateQRCode (storageDir : String) (st : DBState) (userID vehicleID : Nat)
    (expiryHours : Int) (purpose : String) (bytes : List Nat) (now : Int)
    (newId : Nat) : DBState × Except GoError QRCodeResponse :=
  match usersGet st.users userID with
  | .error e => (st, .error (.wrap "failed to get user" e))
  | .ok user =>
    match vehiclesGet st.vehicles vehicleID with
    | .error e => (st, .error (.wrap "failed to get vehicle" e))
    | .ok vehicle =>
      if vehicle.userId != userID then
        (st, .error (.plainMsg "vehicle does not belong to user"))
      else
        let code := generateUniqueCode bytes
        let expiresAt := now + expiryHours * 3600
        let qrData : QRCodeData :=
          { userProfile :=
              { id := user.id, userName := user.userName, firstName := user.firstName,
                lastName := user.lastName, mobileNumber := user.mobileNumber,
                email := user.email },
            vehicle :=
              { id := vehicle.id, licensePlate := vehicle.licensePlate,
                make := vehicle.make, model := vehicle.model, color := vehicle.color,
                vehicleType := vehicle.vehicleType },
            qrInfo :=
              { code := code, generatedAt := now, expiresAt := expiresAt,
                purpose := purpose } }
        let record : QRCode :=
          { id := 0, userId := userID, vehicleId := vehicleID, code := code,
            data := qrData, expiresAt := expiresAt, isActive := true,
            createdAt := 0, version := 0 }
        let st1 : DBState := { st with qrCodes := deactivateAllForUser st.qrCodes userID }
        match qrInsert st1.qrCodes record newId now with
        | .error e => (st1, .error (.wrap "failed to save QR code" e))
        | .ok (table2, stored) =>
          let imageFilename := "qr_" ++ code ++ ".png"
          ({ st1 with qrCodes := table2 },
           .ok { qrCode := stored, qrData := qrData,
                 imagePath := goJoin storageDir imageFilename,
                 imageUrl := "/v1/qr-images/" ++ imageFilename,
                 verifyUrl := "https://spotlinkio.com/verify?code=" ++ code })

/-- Embedding of `Service.VerifyQRCode`: an indexed lookup through
`QRCodeModel.GetByCode` followed by deserializing the stored payload
(`json.Unmarshal`, the inverse of the `json.Marshal` used at issuance and so
modelled as reading the stored value). -/
def verifyQRCode (st : DBState) (code : String) (now : Int) :
    Except GoError QRCodeData :=
  match qrGetByCode st.qrCodes code now with
  | .error e => .error e
  | .ok row => .ok row.data

/-! ## Validator (`internal/validator`) -/

/-- Modelled from the spec: the `internal/validator` package is not among the
provided source files.  Per the spec, validation errors are surfaced per
field; Go's `Validator.AddError` inserts a message into the `Errors` map only
when the key is not already present. -/
def addError (errs : List (String × String)) (key msg : String) :
    List (String × String) :=
  if errs.any (fun e => e.1 == key) then errs else errs ++ [(key, msg)]

/-- Modelled from the spec: `Validator.Check` records the per-field error
message when the checked condition is false. -/
def vcheck (errs : List (String × String)) (ok : Bool) (key msg : String) :
    List (String × String) :=
  if ok then errs else addError errs key msg

/-- Modelled from the spec: `validator.PermittedValue` tests membership of a
value in the permitted list. -/
def permittedValue (v : String) (vals : List String) : Bool := vals.contains v

/-! ## HTTP handlers (`cmd/api/qrcode.go`) -/

/-- Request body of `generateQRCodeHandler`: `vehicle_id` (string UUID),
optional `expiry_hours`, and `purpose`. -/
structure GenerateQRCodeInput : Type where
  vehicleId : String
  expiryHours : Option Int
  purpose : String
deriving DecidableEq, Repr, Inhabited

/-- The response classes a handler can produce, following the app's error
helpers: a created envelope, a per-field validation failure, a not-found
response or a generic server error. -/
inductive HandlerResponse : Type where
  | created (resp : QRCodeResponse)
  | failedValidation (errs : List (String × String))
  | notFoundResp
  | serverErrorResp
deriving DecidableEq, Repr, Inhabited

/-- The validation-error list `generateQRCodeHandler` accumulates before the
`expiry_hours` check: `vehicle_id` must be provided, `purpose` must be a
permitted value, and `uuid.Parse` (the `parse` oracle, standing for the
`github.com/google/uuid` library) must accept `vehicle_id`. -/
def baseErrors (inp : GenerateQRCodeInput) (parse : String → Option Nat) :
    List (String × String) :=
  let errs1 := vcheck [] (inp.vehicleId != "") "vehicle_id" "must be provided"
  let errs2 := vcheck errs1
    (permittedValue inp.purpose ["parking", "identification", "emergency"])
    "purpose" "must be a valid purpose"
  match parse inp.vehicleId with
  | none => addError errs2 "vehicle_id" "must be a valid UUID"
  | some _ => errs2

/-- The full validation-error list of `generateQRCodeHandler`: when
`expiry_hours` is supplied it must satisfy
`expiryHours > 0 && expiryHours <= 168`; when absent no check is added. -/
def generateValidationErrors (inp : GenerateQRCodeInput)
    (parse : String → Option Nat) : List (String × String) :=
  match inp.expiryHours with
  | none => baseErrors inp parse
  | some h =>
      vcheck (baseErrors inp parse) (decide (0 < h) && decide (h ≤ 168))
        "expiry_hours" "must be between 1 and 168 hours (7 days)"

/-- Embedding of `generateQRCodeHandler` after a successful JSON read:
validation runs first and a non-empty error map short-circuits into a
per-field validation response before any lookup or persistence; otherwise the
service runs with the authenticated user's id and the parsed vehicle id, the
expiry defaulting to 24 hours when absent, and a service error is mapped with
`errors.Is(err, data.ErrRecordNotFound)` to not-found, anything else to a
server error. -/
def generateQRCodeHandler (storageDir : String) (st : DBState) (authUserId : Nat)
    (inp : GenerateQRCodeInput) (parse : String → Option Nat) (bytes : List Nat)
    (now : Int) (newId : Nat) : DBState × HandlerResponse :=
  let errs := generateValidationErrors inp parse
  if errs != [] then (st, .failedValidation errs)
  else
    let expiryHours := inp.expiryHours.getD 24
    let vid := (parse inp.vehicleId).getD 0
    match generateQRCode storageDir st authUserId vid expiryHours inp.purpose bytes now newId with
    | (st2, .error e) =>
        if e.goIs .recordNotFound then (st2, .notFoundResp) else (st2, .serverErrorResp)
    | (st2, .ok resp) => (st2, .created resp)

/-- Result of the QR-image handler: a not-found response or a file served
from the given path. -/
inductive ServeResult : Type where
  | notFoundServe
  | served (path : String)
deriving DecidableEq, Repr, Inhabited

/-- Embedding of `serveQRImageHandler`: an empty filename or one differing
from its own `filepath.Base` is rejected with not-found; otherwise the name is
joined onto the storage directory, a missing file (the `fileExists` oracle
standing for `os.Stat`) yields not-found, and an existing file is served. -/
def serveQRImageHandler (storageDir : String) (filename : String)
    (fileExists : String → Bool) : ServeResult :=
  if filename == "" || goBase filename != filename then .notFoundServe
  else
    let imagePath := goJoin storageDir filename
    if !fileExists imagePath then .notFoundServe
    else .served imagePath

/-! ## Notifications (`internal/data/notification.go`) -/

/-- Go struct `Notification`; the Go field `Type` is `ntype` here (`type` is a
reserved word), and `Data *string` becomes an optional string. -/
structure Notification : Type where
  id : Nat
  userId : Nat
  ntype : String
  title : String
  message : String
  isRead : Bool
  ndata : Option String
  createdAt : Int
deriving DecidableEq, Repr, Inhabited

/-- The per-statement loop of `NotificationModel.BulkInsert` inside the open
transaction: rows are appended to the transaction-local view one at a time;
`fails` is the backing store's per-statement outcome (a constraint violation
or connection failure on that row), and the first failing statement aborts
the loop with its error. -/
def bulkInsertGo (fails : Notification → Bool) :
    List Notification → List Notification → Except GoError (List Notification)
  | [], tx => .ok tx
  | n :: rest, tx =>
      if fails n then .error (.plainMsg "bulk insert exec failed")
      else bulkInsertGo fails rest (tx ++ [n])

/-- Embedding of `NotificationModel.BulkInsert`: all inserts run inside one
transaction (`BeginTx` ... `defer tx.Rollback()` ... `tx.Commit()`).  If any
insert fails its error is returned and the deferred rollback discards every
insert, leaving the stored table unchanged; otherwise the commit publishes
all of them.  The inserted columns are `(user_id, type, title, message,
is_read, data)`; `id` and `created_at` are assigned by the database and not
read back (the statement has no RETURNING clause), so rows are stored as
given. -/
def bulkInsert (table : List Notification) (items : List Notification)
    (fails : Notification → Bool) : List Notification × Except GoError Unit :=
  match bulkInsertGo fails items table with
  | .ok tx => (tx, .ok ())
  | .error e => (table, .error e)

/-! ## Concrete sample data for the QR flows -/

/-- Sample registered user, id 1. -/
def uSample : User :=
  { id := 1, email := "ann@example.com", userName := "ann", passwordHash := "h",
    firstName := some "Ann", lastName := none, mobileNumber := none,
    avatarUrl := none, role := "user", authType := "local",
    hasCompletedOnboarding := true, activated := true, version := 1,
    createdAt := 0, updatedAt := 0 }

/-- Sample vehicle owned by a different user (id 7) than the authenticated
user 1. -/
def vForeign : Vehicle := { vSampleB with userId := 7 }

/-- A fixed all-zero 32-byte random draw; its derived code is 32 copies of
`A`. -/
def zeros32 : List Nat := List.replicate 32 0

/-- Sample QR payload snapshot. -/
def qrDataSample : QRCodeData :=
  { userProfile := { id := 1, userName := "ann", firstName := some "Ann",
                     lastName := none, mobileNumber := none,
                     email := "ann@example.com" },
    vehicle := { id := 1, licensePlate := "AAA", make := "Toyota",
                 model := "Corolla", color := "red", vehicleType := "car" },
    qrInfo := { code := "X", generatedAt := 0, expiresAt := 10,
                purpose := "parking" } }

/-- Stored QR row whose code is the one derived from the all-zero draw. -/
def qrRowZeros : QRCode :=
  { id := 5, userId := 1, vehicleId := 1, code := generateUniqueCode zeros32,
    data := qrDataSample, expiresAt := 1000, isActive := true, createdAt := 0,
    version := 1 }

/-- Stored QR row that is past its expiry timestamp but still flagged active. -/
def qrRowExpired : QRCode :=
  { id := 6, userId := 1, vehicleId := 1, code := "X", data := qrDataSample,
    expiresAt := 10, isActive := true, createdAt := 0, version := 1 }

/-- Stored QR row that has been deactivated but is not yet expired. -/
def qrRowInactive : QRCode :=
  { id := 7, userId := 1, vehicleId := 1, code := "Y", data := qrDataSample,
    expiresAt := 1000, isActive := false, createdAt := 0, version := 1 }

/-- State for the happy-path issuance scenario: user 1 owns vehicle 1 and has
no QR codes yet. -/
def stHappy : DBState :=
  { users := [uSample], vehicles := [vSampleA], qrCodes := [] }

/-- State where the code derived from the all-zero draw is already stored. -/
def stCollide : DBState :=
  { users := [uSample], vehicles := [vSampleA], qrCodes := [qrRowZeros] }

/-- State where vehicle 2 exists but belongs to user 7, not to the
authenticated user 1. -/
def stForeign : DBState :=
  { users := [uSample], vehicles := [vForeign], qrCodes := [] }

/-- State holding one expired-but-active row and one deactivated row. -/
def stStale : DBState :=
  { users := [uSample], vehicles := [vSampleA],
    qrCodes := [qrRowExpired, qrRowInactive] }

/-- Valid generation request for vehicle 1 with no expiry supplied. -/
def inpOk : GenerateQRCodeInput :=
  { vehicleId := "v1", expiryHours := none, purpose := "parking" }

/-- Generation request for the foreign-owned vehicle 2. -/
def inpForeign : GenerateQRCodeInput :=
  { vehicleId := "v2", expiryHours := none, purpose := "parking" }

/-- Generation request carrying an out-of-range expiry of 200 hours. -/
def inpBadExpiry : GenerateQRCodeInput :=
  { vehicleId := "v1", expiryHours := some 200, purpose := "parking" }

/-- Generation request carrying an in-range expiry of 48 hours. -/
def inpGoodExpiry : GenerateQRCodeInput :=
  { vehicleId := "v1", expiryHours := some 48, purpose := "parking" }

/-- Concrete `uuid.Parse` oracle for the sample requests. -/
def parseSample : String → Option Nat := fun s =>
  if s == "v1" then some 1 else if s == "v2" then some 2 else none

/-- The happy-path service run: issue a code for user 1 on vehicle 1 at time
50 with a 24-hour TTL. -/
def svcRunHappy : DBState × Except GoError QRCodeResponse :=
  generateQRCode "storage/qrcodes" stHappy 1 1 24 "parking" zeros32 50 9

/-- The response produced by the happy-path service run. -/
def svcRespHappy : QRCodeResponse :=
  match svcRunHappy.2 with
  | .ok r => r
  | .error _ => default

/-- The happy-path handler run with no `expiry_hours` supplied. -/
def hRunHappy : DBState × HandlerResponse :=
  generateQRCodeHandler "storage/qrcodes" stHappy 1 inpOk parseSample zeros32 50 9

/-- The response produced by the happy-path handler run. -/
def hRespHappy : QRCodeResponse :=
  match hRunHappy.2 with
  | .created r => r
  | _ => default

/-- Sample notification addressed to user 1. -/
def nGood : Notification :=
  { id := 0, userId := 1, ntype := "payment_due", title := "ok",
    message := "m", isRead := false, ndata := none, createdAt := 0 }

/-- Sample notification whose insert the backing store will reject. -/
def nBad : Notification := { nGood with title := "bad" }

/-- Per-statement failure oracle for the bulk-insert samples: the store
rejects exactly the rows titled `bad`. -/
def failsBad : Notification → Bool := fun n => n.title == "bad"

/-! ## Helper lemmas -/

/-- Filtering on the vehicle id commutes with mapping an id-preserving function. -/
theorem filter_vid_map (f : Vehicle → Vehicle) (hid : ∀ o, (f o).id = o.id)
    (l : List Vehicle) (n : Nat) :
    (l.map f).filter (fun o => o.id == n) = (l.filter fun o => o.id == n).map f := by
  induction l with
  | nil => rfl
  | cons a t ih =>
    by_cases h : (a.id == n) = true <;>
      simp [List.filter_cons, h, ih, hid a]

/-- The unset-default row transformation never changes a row's id. -/
theorem unsetDefaultRow_id (u e : Nat) (o : Vehicle) :
    (unsetDefaultRow u e o).id = o.id := by
  unfold unsetDefaultRow; split <;> rfl

/-- The versioned-update row transformation never changes a row's id. -/
theorem vehicleUpdateRow_id (inp : Vehicle) (now : Int) (o : Vehicle) :
    (vehicleUpdateRow inp now o).id = o.id := by
  unfold vehicleUpdateRow; split <;> rfl

/-! ## Claims about the optimistic-concurrency update (`VehicleModel.Update`) -/

/-- C1: updating a vehicle whose stored version differs from the supplied one
(including the case where no row with that id exists at all) returns
`ErrEditConflict` and leaves the stored table completely unchanged: no field,
no version counter and no `updated_at` is modified. -/
theorem C1_stale_update_conflict (table : List Vehicle) (inp : Vehicle) (now : Int)
    (h : ∀ r ∈ table, r.id = inp.id → r.version ≠ inp.version) :
    vehicleUpdate table inp now = (table, .error .editConflict) := by
  have hf : (table.filter fun r => r.id == inp.id && r.version == inp.version) = [] := by
    rw [List.filter_eq_nil_iff]
    intro r hr
    simp only [Bool.and_eq_true, beq_iff_eq, not_and]
    exact h r hr
  simp [vehicleUpdate, hf]

/-- Witness for C1: vehicle 1 is stored at version 1; an update carrying
version 2 is rejected with an edit conflict and the table is unchanged. -/
theorem C1_stale_update_conflict_witness :
    (∀ r ∈ [vSampleA], r.id = vInputStale.id → r.version ≠ vInputStale.version) ∧
    vehicleUpdate [vSampleA] vInputStale 5 = ([vSampleA], .error .editConflict) :=
  ⟨by decide, C1_stale_update_conflict [vSampleA] vInputStale 5 (by decide)⟩

/-- C2 counterexample: an update whose supplied version equals the stored
version can still fail.  Vehicle 1 is stored at version 1 and the update
carries version 1, yet setting its license plate to vehicle 2's stored plate
violates the unique constraint on `license_plate`, so `VehicleModel.Update`
returns `ErrDuplicateLicensePlate` instead of succeeding and the stored
version is not incremented. -/
theorem C2_counterexample :
    vInputCollide.version = vSampleA.version ∧
    vehicleUpdate [vSampleA, vSampleB] vInputCollide 5 =
      ([vSampleA, vSampleB], .error .duplicateLicensePlate) := by
  constructor <;> rfl

/-- C2 (amended): if `r` is the unique stored row with the input's id, the
supplied version equals `r`'s stored version, and the new license plate does
not collide with a different row's plate, then the update succeeds: it
returns `(now, r.version + 1)`, the stored row now carries the new fields
with version incremented by exactly 1 and `updated_at` set to `now`, which
advances it past the old `updated_at`. -/
theorem C2_current_update_succeeds (table : List Vehicle) (inp r : Vehicle) (now : Int)
    (hfil : (table.filter fun o => o.id == inp.id) = [r])
    (hver : r.version = inp.version)
    (hplate : ∀ o ∈ table, o.id ≠ inp.id → o.licensePlate ≠ inp.licensePlate)
    (hnow : r.updatedAt < now) :
    (vehicleUpdate table inp now).2 = .ok (now, r.version + 1) ∧
    (vehicleUpdate table inp now).1.filter (fun o => o.id == inp.id) =
      [{ r with licensePlate := inp.licensePlate, make := inp.make, model := inp.model,
                color := inp.color, vehicleType := inp.vehicleType,
                isDefault := inp.isDefault, updatedAt := now, version := r.version + 1 }] ∧
    r.updatedAt < now := by
  have hrid : r.id = inp.id := by
    have hrmem : r ∈ table.filter fun o => o.id == inp.id := by
      rw [hfil]; exact List.mem_singleton_self r
    have := List.mem_filter.mp hrmem
    simpa using this.2
  have hmatched : (table.filter fun o => o.id == inp.id && o.version == inp.version) = [r] := by
    rw [show (fun o : Vehicle => o.id == inp.id && o.version == inp.version)
          = (fun o : Vehicle => o.version == inp.version && o.id == inp.id) from
        funext fun o => Bool.and_comm _ _,
      ← List.filter_filter, hfil]
    simp [List.filter_cons, hver]
  have hdup : (table.any fun o => o.id != inp.id && o.licensePlate == inp.licensePlate) = false := by
    rw [List.any_eq_false]
    intro o ho
    simp only [Bool.and_eq_true, bne_iff_ne, beq_iff_eq, not_and]
    exact hplate o ho
  have hcond : (r.id == inp.id && r.version == inp.version) = true := by
    simp [hrid, hver]
  have hrun : vehicleUpdate table inp now =
      ((if inp.isDefault then
          unsetDefaultForUser (table.map (vehicleUpdateRow inp now)) inp.userId inp.id
        else table.map (vehicleUpdateRow inp now)), .ok (now, r.version + 1)) := by
    simp [vehicleUpdate, hmatched, hdup]
  refine ⟨by rw [hrun], ?_, hnow⟩
  rw [hrun]
  by_cases hdflt : inp.isDefault = true
  · simp only [hdflt, if_true, unsetDefaultForUser]
    rw [filter_vid_map (unsetDefaultRow inp.userId inp.id) (unsetDefaultRow_id inp.userId inp.id),
      filter_vid_map (vehicleUpdateRow inp now) (vehicleUpdateRow_id inp now), hfil]
    simp [vehicleUpdateRow, hcond, unsetDefaultRow, hrid, hver, hdflt]
  · simp only [Bool.not_eq_true] at hdflt
    simp only [hdflt, Bool.false_eq_true, if_false]
    rw [filter_vid_map (vehicleUpdateRow inp now) (vehicleUpdateRow_id inp now), hfil]
    simp [vehicleUpdateRow, hcond, hrid, hver, hdflt]

/-- Witness for C2 (amended): updating vehicle 1 (stored version 1) with
version 1 and a fresh color succeeds, returns version 2 with timestamp 5,
and the stored row is replaced accordingly. -/
theorem C2_current_update_succeeds_witness :
    (vehicleUpdate [vSampleA, vSampleB] vInputFresh 5).2 = .ok (5, vSampleA.version + 1) ∧
    (vehicleUpdate [vSampleA, vSampleB] vInputFresh 5).1.filter
        (fun o => o.id == vInputFresh.id) =
      [{ vSampleA with licensePlate := vInputFresh.licensePlate, make := vInputFresh.make,
                       model := vInputFresh.model, color := vInputFresh.color,
                       vehicleType := vInputFresh.vehicleType,
                       isDefault := vInputFresh.isDefault,
                       updatedAt := 5, version := vSampleA.version + 1 }] ∧
    vSampleA.updatedAt < 5 :=
  C2_current_update_succeeds [vSampleA, vSampleB] vInputFresh vSampleA 5
    (by decide) (by decide) (by decide) (by decide)


/-! ## Claims about QR verification (`QRCodeModel.GetByCode`, `Service.VerifyQRCode`) -/

/-- C4: when every stored row carrying the queried code is deactivated or past
its expiry (and in particular when no row carries it at all), verification
returns exactly `ErrRecordNotFound` — the same error value for expired,
deactivated and never-issued codes, so the caller cannot distinguish them;
contrapositively, verification can only succeed when an active, unexpired row
exactly matches the code. -/
theorem C4_verify_unified_notfound (st : DBState) (code : String) (now : Int)
    (h : ∀ r ∈ st.qrCodes, r.code = code → r.isActive = false ∨ r.expiresAt ≤ now) :
    verifyQRCode st code now = .error .recordNotFound := by
  have hf : st.qrCodes.find?
      (fun r => r.code == code && r.isActive && now < r.expiresAt) = none := by
    rw [List.find?_eq_none]
    intro r hr hpred
    simp only [Bool.and_eq_true, beq_iff_eq, decide_eq_true_eq] at hpred
    obtain ⟨⟨hcode, hact⟩, hlt⟩ := hpred
    rcases h r hr hcode with h4 | h4
    · rw [h4] at hact
      exact Bool.false_ne_true hact
    · exact absurd hlt (not_lt.mpr h4)
  simp [verifyQRCode, qrGetByCode, hf]

/-- Witness for C4: at time 50, code `X` is stored expired-but-active and code
`Y` is stored deactivated; verifying `X` yields the unified not-found error. -/
theorem C4_verify_unified_notfound_witness :
    (∀ r ∈ stStale.qrCodes, r.code = "X" → r.isActive = false ∨ r.expiresAt ≤ 50) ∧
    verifyQRCode stStale "X" 50 = .error .recordNotFound :=
  ⟨by decide, C4_verify_unified_notfound stStale "X" 50 (by decide)⟩

/-! ## Claims about the QR image handler (`serveQRImageHandler`) -/

/-- C7: a requested image name that is empty or differs from its own
`filepath.Base` (that is, contains a directory component) is answered with the
not-found response and no file is served. -/
theorem C7_nonbare_filename_rejected (storageDir filename : String)
    (fileExists : String → Bool)
    (h : filename = "" ∨ goBase filename ≠ filename) :
    serveQRImageHandler storageDir filename fileExists = .notFoundServe := by
  have hcond : (filename == "" || goBase filename != filename) = true := by
    rcases h with h | h
    · simp [h]
    · simp [h]
  simp [serveQRImageHandler, hcond]

/-- Witness for C7: requesting `a/b` (whose base is `b`) is rejected with
not-found even when every path exists on disk. -/
theorem C7_nonbare_filename_rejected_witness :
    ("a/b" = "" ∨ goBase "a/b" ≠ "a/b") ∧
    serveQRImageHandler "storage/qrcodes" "a/b" (fun _ => true) = .notFoundServe :=
  ⟨Or.inr (by decide),
   C7_nonbare_filename_rejected "storage/qrcodes" "a/b" (fun _ => true)
     (Or.inr (by decide))⟩

/-! ## Claims about code generation (`Service.generateUniqueCode`) -/

/-- Every alphabet lookup produced by the encoder is a URL-safe character
(out-of-range indices, which byte inputs never produce, fall back to the
default `A`, itself URL-safe). -/
theorem urlSafe_b64Char (i : Nat) : urlSafeChar (b64Char i) = true := by
  by_cases h : i < 64
  · have hall : ∀ j, j < 64 → urlSafeChar (b64Char j) = true := by decide
    exact hall i h
  · have hchar : b64Char i = 'A' := by
      unfold b64Char
      refine List.getD_eq_default _ _ ?_
      have : base64UrlAlphabet.length = 64 := by decide
      omega
    rw [hchar]; decide

/-- The encoder distributes over an append at a three-byte boundary. -/
theorem b64_append : ∀ (bs cs : List Nat), bs.length % 3 = 0 →
    base64UrlEncode (bs ++ cs) = base64UrlEncode bs ++ base64UrlEncode cs
  | [], cs, _ => by simp [base64UrlEncode]
  | [b1], _, h => by simp at h
  | [b1, b2], _, h => by simp at h
  | b1 :: b2 :: b3 :: rest, cs, h => by
      have hr : rest.length % 3 = 0 := by
        simp only [List.length_cons] at h
        omega
      simp [base64UrlEncode, b64_append rest cs hr]

/-- On inputs whose length is a multiple of three the encoding contains only
alphabet characters (no padding). -/
theorem b64_full_alpha : ∀ (bs : List Nat), bs.length % 3 = 0 →
    ∀ c ∈ base64UrlEncode bs, urlSafeChar c = true
  | [], _, c, hc => by simp [base64UrlEncode] at hc
  | [b1], h, _, _ => by simp at h
  | [b1, b2], h, _, _ => by simp at h
  | b1 :: b2 :: b3 :: rest, h, c, hc => by
      have hr : rest.length % 3 = 0 := by
        simp only [List.length_cons] at h
        omega
      simp only [base64UrlEncode, List.mem_cons] at hc
      rcases hc with hc | hc | hc | hc | hc
      · rw [hc]; exact urlSafe_b64Char _
      · rw [hc]; exact urlSafe_b64Char _
      · rw [hc]; exact urlSafe_b64Char _
      · rw [hc]; exact urlSafe_b64Char _
      · exact b64_full_alpha rest hr c hc

/-- On inputs whose length is a multiple of three the encoding has four
characters per three input bytes. -/
theorem b64_length_full : ∀ (bs : List Nat), bs.length % 3 = 0 →
    (base64UrlEncode bs).length = 4 * (bs.length / 3)
  | [], _ => by simp [base64UrlEncode]
  | [b1], h => by simp at h
  | [b1, b2], h => by simp at h
  | b1 :: b2 :: b3 :: rest, h => by
      have hr : rest.length % 3 = 0 := by
        simp only [List.length_cons] at h
        omega
      have hdiv : (rest.length + 3) / 3 = rest.length / 3 + 1 :=
        Nat.add_div_right rest.length (by norm_num)
      simp only [base64UrlEncode, List.length_cons, b64_length_full rest hr]
      omega

/-- C8: for every 32-byte random draw, the generated code is a string of
exactly 32 characters, each drawn from the URL-safe base64 alphabet. -/
theorem C8_code_32_urlsafe (bytes : List Nat) (hlen : bytes.length = 32)
    (_hbyte : ∀ b ∈ bytes, b < 256) :
    (generateUniqueCode bytes).length = 32 ∧
    ∀ c ∈ (generateUniqueCode bytes).toList, urlSafeChar c = true := by
  have hsplit : bytes.take 30 ++ bytes.drop 30 = bytes := List.take_append_drop 30 bytes
  have hlen30 : (bytes.take 30).length = 30 := by
    rw [List.length_take]
    omega
  have hmod : (bytes.take 30).length % 3 = 0 := by rw [hlen30]
  have henc : base64UrlEncode bytes =
      base64UrlEncode (bytes.take 30) ++ base64UrlEncode (bytes.drop 30) := by
    conv_lhs => rw [← hsplit]
    exact b64_append _ _ hmod
  have hlenenc : (base64UrlEncode (bytes.take 30)).length = 40 := by
    rw [b64_length_full _ hmod, hlen30]
  have htake : (base64UrlEncode bytes).take 32 =
      (base64UrlEncode (bytes.take 30)).take 32 := by
    rw [henc, List.take_append_of_le_length (by omega)]
  constructor
  · show ((base64UrlEncode bytes).take 32).length = 32
    rw [htake, List.length_take]
    omega
  · intro c hc
    have hc2 : c ∈ (base64UrlEncode (bytes.take 30)).take 32 := by
      rw [← htake]
      exact hc
    exact b64_full_alpha _ hmod c (List.mem_of_mem_take hc2)

/-- Witness for C8: the all-zero 32-byte draw yields a 32-character URL-safe
code. -/
theorem C8_code_32_urlsafe_witness :
    (generateUniqueCode zeros32).length = 32 ∧
    ∀ c ∈ (generateUniqueCode zeros32).toList, urlSafeChar c = true :=
  C8_code_32_urlsafe zeros32 (by decide) (by decide)

/-! ## Claims about bulk notification insert (`NotificationModel.BulkInsert`) -/

/-- When every statement succeeds the in-transaction loop appends all rows. -/
theorem bulkInsertGo_ok (fails : Notification → Bool) :
    ∀ (items tx : List Notification), (∀ n ∈ items, fails n = false) →
      bulkInsertGo fails items tx = .ok (tx ++ items)
  | [], tx, _ => by simp [bulkInsertGo]
  | n :: rest, tx, h => by
      have hn : fails n = false := h n (by simp)
      have hr : ∀ m ∈ rest, fails m = false := fun m hm => h m (by simp [hm])
      simp [bulkInsertGo, hn, bulkInsertGo_ok fails rest (tx ++ [n]) hr]

/-- When some statement fails the in-transaction loop surfaces its error. -/
theorem bulkInsertGo_err (fails : Notification → Bool) :
    ∀ (items tx : List Notification), (∃ n ∈ items, fails n = true) →
      bulkInsertGo fails items tx = .error (.plainMsg "bulk insert exec failed")
  | [], _, h => absurd h (by simp)
  | n :: rest, tx, h => by
      by_cases hn : fails n = true
      · simp [bulkInsertGo, hn]
      · have hnf : fails n = false := by
          revert hn; cases fails n <;> simp
        have hr : ∃ m ∈ rest, fails m = true := by
          rcases h with ⟨m, hm, hf⟩
          rcases List.mem_cons.mp hm with rfl | hm2
          · exact absurd hf hn
          · exact ⟨m, hm2, hf⟩
        simp [bulkInsertGo, hnf, bulkInsertGo_err fails rest (tx ++ [n]) hr]

/-- C9: the bulk insert is all-or-nothing.  If the backing store rejects any
row, the whole call returns that error and the stored table is unchanged — no
notification is persisted; if every row is accepted, all of them are
committed together. -/
theorem C9_bulk_insert_atomic (table items : List Notification)
    (fails : Notification → Bool) :
    ((∃ n ∈ items, fails n = true) →
      bulkInsert table items fails =
        (table, .error (.plainMsg "bulk insert exec failed"))) ∧
    ((∀ n ∈ items, fails n = false) →
      bulkInsert table items fails = (table ++ items, .ok ())) := by
  constructor
  · intro h
    simp [bulkInsert, bulkInsertGo_err fails items table h]
  · intro h
    simp [bulkInsert, bulkInsertGo_ok fails items table h]

/-- Witness for C9: inserting a good and a rejected row changes nothing and
errors; inserting two good rows commits both. -/
theorem C9_bulk_insert_atomic_witness :
    bulkInsert [nGood] [nGood, nBad] failsBad =
      ([nGood], .error (.plainMsg "bulk insert exec failed")) ∧
    bulkInsert [nGood] [nGood, nGood] failsBad =
      ([nGood, nGood, nGood], .ok ()) :=
  ⟨(C9_bulk_insert_atomic [nGood] [nGood, nBad] failsBad).1 (by decide),
   (C9_bulk_insert_atomic [nGood] [nGood, nGood] failsBad).2 (by decide)⟩


/-! ## Claims about QR issuance (`Service.GenerateQRCode` and its handler) -/

/-- After deactivating all of a user's codes, no stored row of that user is
active. -/
theorem deact_filter_nil (rows : List QRCode) (uid : Nat) :
    (deactivateAllForUser rows uid).filter
      (fun r => r.userId == uid && r.isActive) = [] := by
  rw [deactivateAllForUser, List.filter_eq_nil_iff]
  intro r hr
  obtain ⟨a, ha, rfl⟩ := List.mem_map.mp hr
  unfold deactivateRow
  by_cases h : (a.userId == uid) = true <;> simp [h]

/-- Shape of every successful issuance: tracing `Service.GenerateQRCode`, a
success means both lookups succeeded, the ownership check passed, and the
insert committed, so the returned row belongs to the requesting user, is
active, expires `hours` hours after `now`, and the new table is the
deactivated old table with exactly that row appended. -/
theorem generateQRCode_ok_shape (storageDir : String) (st : DBState)
    (uid vid : Nat) (hours : Int) (purpose : String) (bytes : List Nat)
    (now : Int) (newId : Nat) (st2 : DBState) (resp : QRCodeResponse)
    (h : generateQRCode storageDir st uid vid hours purpose bytes now newId =
      (st2, .ok resp)) :
    resp.qrCode.userId = uid ∧ resp.qrCode.isActive = true ∧
    resp.qrCode.expiresAt = now + hours * 3600 ∧
    st2.qrCodes = deactivateAllForUser st.qrCodes uid ++ [resp.qrCode] := by
  unfold generateQRCode at h
  cases hu : usersGet st.users uid with
  | error e => rw [hu] at h; simp at h
  | ok user =>
    rw [hu] at h
    cases hv : vehiclesGet st.vehicles vid with
    | error e => rw [hv] at h; simp at h
    | ok vehicle =>
      rw [hv] at h
      by_cases hown : (vehicle.userId != uid) = true
      · simp [hown] at h
      · simp only [Bool.not_eq_true] at hown
        simp only [hown, Bool.false_eq_true, if_false] at h
        by_cases hdup : ((deactivateAllForUser st.qrCodes uid).any
            (fun r => r.code == generateUniqueCode bytes)) = true
        · simp [qrInsert, hdup] at h
        · simp only [Bool.not_eq_true] at hdup
          simp only [qrInsert, hdup, Bool.false_eq_true, if_false,
            Prod.mk.injEq, Except.ok.injEq] at h
          obtain ⟨h1, h2⟩ := h
          subst h2
          refine ⟨rfl, rfl, rfl, ?_⟩
          rw [← h1]

/-- C3: whenever issuance succeeds, the resulting table holds exactly one
active QR code for the requesting user — the newly issued one — because all
previously active codes were deactivated before the new row was persisted. -/
theorem C3_single_active_after_issue (storageDir : String) (st : DBState)
    (uid vid : Nat) (hours : Int) (purpose : String) (bytes : List Nat)
    (now : Int) (newId : Nat) (st2 : DBState) (resp : QRCodeResponse)
    (h : generateQRCode storageDir st uid vid hours purpose bytes now newId =
      (st2, .ok resp)) :
    st2.qrCodes.filter (fun r => r.userId == uid && r.isActive) =
      [resp.qrCode] := by
  obtain ⟨ha, hb, _, hd⟩ :=
    generateQRCode_ok_shape storageDir st uid vid hours purpose bytes now newId
      st2 resp h
  rw [hd, List.filter_append, deact_filter_nil]
  simp [ha, hb]

/-- Witness for C3: issuing for user 1 on vehicle 1 from the happy-path state
leaves exactly the new row active for user 1. -/
theorem C3_single_active_after_issue_witness :
    svcRunHappy.1.qrCodes.filter (fun r => r.userId == 1 && r.isActive) =
      [svcRespHappy.qrCode] :=
  C3_single_active_after_issue "storage/qrcodes" stHappy 1 1 24 "parking"
    zeros32 50 9 svcRunHappy.1 svcRespHappy (by rfl)

/-- C5 counterexample: the implementation does not redraw on a uniqueness
violation.  From a state already storing the code derived from the all-zero
draw, issuance fails with the wrapped unique-violation error instead of
retrying the insert with a fresh code, and no new row is persisted (the table
length is unchanged; the user's old codes are merely deactivated). -/
theorem C5_counterexample :
    generateQRCode "storage/qrcodes" stCollide 1 1 24 "parking" zeros32 50 9 =
      ({ stCollide with qrCodes := deactivateAllForUser stCollide.qrCodes 1 },
       .error (.wrap "failed to save QR code" .duplicateCode)) ∧
    (generateQRCode "storage/qrcodes" stCollide 1 1 24 "parking" zeros32 50 9).1.qrCodes.length
      = stCollide.qrCodes.length := by
  constructor <;> rfl

/-- C5 (amended): when the freshly drawn code collides with a stored row, the
insert's unique-violation error is wrapped and returned to the caller with no
redraw and no retry; the only state change is the already-committed
deactivation of the user's previous codes. -/
theorem C5_collision_no_retry (storageDir : String) (st : DBState)
    (uid vid : Nat) (hours : Int) (purpose : String) (bytes : List Nat)
    (now : Int) (newId : Nat) (user : User) (vehicle : Vehicle)
    (hu : usersGet st.users uid = .ok user)
    (hv : vehiclesGet st.vehicles vid = .ok vehicle)
    (hown : vehicle.userId = uid)
    (hcol : ((deactivateAllForUser st.qrCodes uid).any
        (fun r => r.code == generateUniqueCode bytes)) = true) :
    generateQRCode storageDir st uid vid hours purpose bytes now newId =
      ({ st with qrCodes := deactivateAllForUser st.qrCodes uid },
       .error (.wrap "failed to save QR code" .duplicateCode)) := by
  unfold generateQRCode
  rw [hu, hv]
  simp [hown, qrInsert, hcol]

/-- Witness for C5 (amended): the collision state triggers exactly the
wrapped unique-violation error. -/
theorem C5_collision_no_retry_witness :
    generateQRCode "storage/qrcodes" stCollide 1 1 24 "parking" zeros32 50 9 =
      ({ stCollide with qrCodes := deactivateAllForUser stCollide.qrCodes 1 },
       .error (.wrap "failed to save QR code" .duplicateCode)) :=
  C5_collision_no_retry "storage/qrcodes" stCollide 1 1 24 "parking" zeros32
    50 9 uSample vSampleA (by rfl) (by rfl) (by decide) (by decide)

/-- C6 counterexample: user 1 requests a code for vehicle 2, which exists but
belongs to user 7.  The service's ownership check fails with a plain error
that `errors.Is(err, ErrRecordNotFound)` does not match, so the handler
answers with the generic server error — not with the not-found response the
claim requires. -/
theorem C6_counterexample :
    generateQRCodeHandler "storage/qrcodes" stForeign 1 inpForeign parseSample
        zeros32 50 9 = (stForeign, .serverErrorResp) ∧
    (generateQRCodeHandler "storage/qrcodes" stForeign 1 inpForeign parseSample
        zeros32 50 9).2 ≠ .notFoundResp := by
  constructor
  · rfl
  · decide

/-- C6 (amended): for every request that passes validation, when the
referenced vehicle exists but does not belong to the authenticated user, the
operation fails and the caller receives the generic server-error response:
the ownership mismatch is a plain (unwrapped) error, so the handler's
`errors.Is(err, ErrRecordNotFound)` mapping does not turn it into not-found. -/
theorem C6_foreign_vehicle_server_error (storageDir : String) (st : DBState)
    (uid : Nat) (inp : GenerateQRCodeInput) (parse : String → Option Nat)
    (bytes : List Nat) (now : Int) (newId : Nat) (vid : Nat) (user : User)
    (vehicle : Vehicle)
    (hvs : (inp.vehicleId != "") = true)
    (hpurp : permittedValue inp.purpose ["parking", "identification", "emergency"] = true)
    (hparse : parse inp.vehicleId = some vid)
    (hexp : ∀ hrs, inp.expiryHours = some hrs → 0 < hrs ∧ hrs ≤ 168)
    (hu : usersGet st.users uid = .ok user)
    (hv : vehiclesGet st.vehicles vid = .ok vehicle)
    (hown : vehicle.userId ≠ uid) :
    generateQRCodeHandler storageDir st uid inp parse bytes now newId =
      (st, .serverErrorResp) := by
  have hbase : baseErrors inp parse = [] := by
    unfold baseErrors
    rw [hparse]
    simp [vcheck, hvs, hpurp]
  have herrs : generateValidationErrors inp parse = [] := by
    unfold generateValidationErrors
    cases hex : inp.expiryHours with
    | none => exact hbase
    | some hrs =>
      obtain ⟨h1, h2⟩ := hexp hrs hex
      simp [vcheck, hbase, h1, h2]
  have hbne : (vehicle.userId != uid) = true := by simp [hown]
  unfold generateQRCodeHandler
  rw [herrs, hparse]
  simp only [Option.getD_some]
  unfold generateQRCode
  rw [hu, hv]
  simp [hbne, GoError.goIs]

/-- Witness for C6 (amended): the concrete foreign-vehicle scenario yields
the server-error response. -/
theorem C6_foreign_vehicle_server_error_witness :
    generateQRCodeHandler "storage/qrcodes" stForeign 1 inpForeign parseSample
        zeros32 50 9 = (stForeign, .serverErrorResp) :=
  C6_foreign_vehicle_server_error "storage/qrcodes" stForeign 1 inpForeign
    parseSample zeros32 50 9 2 uSample vForeign (by decide) (by decide)
    (by rfl) (fun hrs hx => Option.noConfusion hx) (by rfl) (by rfl) (by decide)

/-! ## Claims about expiry validation (`generateQRCodeHandler`) -/

/-- Membership in an `addError` result comes from the old list or is the new
pair. -/
theorem addError_subset (errs : List (String × String)) (k m : String)
    (e : String × String) (h : e ∈ addError errs k m) : e ∈ errs ∨ e = (k, m) := by
  unfold addError at h
  split at h
  · exact Or.inl h
  · rcases List.mem_append.mp h with h2 | h2
    · exact Or.inl h2
    · simp at h2
      exact Or.inr (by rw [h2])

/-- Membership in a `vcheck` result comes from the old list or is the new
pair. -/
theorem vcheck_subset (errs : List (String × String)) (ok : Bool) (k m : String)
    (e : String × String) (h : e ∈ vcheck errs ok k m) : e ∈ errs ∨ e = (k, m) := by
  unfold vcheck at h
  split at h
  · exact Or.inl h
  · exact addError_subset errs k m e h

/-- Every error accumulated before the expiry check is keyed `vehicle_id` or
`purpose`. -/
theorem baseErrors_keys (inp : GenerateQRCodeInput) (parse : String → Option Nat)
    (e : String × String) (h : e ∈ baseErrors inp parse) :
    e.1 = "vehicle_id" ∨ e.1 = "purpose" := by
  unfold baseErrors at h
  have core : ∀ x ∈ vcheck
      (vcheck [] (inp.vehicleId != "") "vehicle_id" "must be provided")
      (permittedValue inp.purpose ["parking", "identification", "emergency"])
      "purpose" "must be a valid purpose",
      x.1 = "vehicle_id" ∨ x.1 = "purpose" := by
    intro x hx
    rcases vcheck_subset _ _ _ _ _ hx with hx2 | hx2
    · rcases vcheck_subset _ _ _ _ _ hx2 with hx3 | hx3
      · simp at hx3
      · exact Or.inl (by rw [hx3])
    · exact Or.inr (by rw [hx2])
  cases hp : parse inp.vehicleId with
  | none =>
    rw [hp] at h
    rcases addError_subset _ _ _ _ h with h2 | h2
    · exact core e h2
    · exact Or.inl (by rw [h2])
  | some v =>
    rw [hp] at h
    exact core e h

/-- A fresh key is really appended by `addError`. -/
theorem addError_mem_self (errs : List (String × String)) (k m : String)
    (h : ∀ e ∈ errs, e.1 ≠ k) : (k, m) ∈ addError errs k m := by
  have hany : (errs.any (fun e => e.1 == k)) = false := by
    rw [List.any_eq_false]
    intro e he
    simpa using h e he
  unfold addError
  rw [hany]
  simp

/-- C10: the handler's expiry validation.  First, a supplied `expiry_hours`
outside 1..168 makes the handler answer with the per-field validation errors
— including one keyed `expiry_hours` — while the stored state is returned
untouched, before any lookup or persistence.  Second, when `expiry_hours` is
absent and the request succeeds, the issued code expires exactly 24 hours
after `now`.  Third, an in-range supplied value adds no `expiry_hours`
error. -/
theorem C10_expiry_validation (storageDir : String) (st : DBState) (uid : Nat)
    (inp : GenerateQRCodeInput) (parse : String → Option Nat) (bytes : List Nat)
    (now : Int) (newId : Nat) :
    (∀ hrs, inp.expiryHours = some hrs → ¬(0 < hrs ∧ hrs ≤ 168) →
      generateQRCodeHandler storageDir st uid inp parse bytes now newId =
        (st, .failedValidation (generateValidationErrors inp parse)) ∧
      ("expiry_hours", "must be between 1 and 168 hours (7 days)") ∈
        generateValidationErrors inp parse) ∧
    (∀ st2 resp, inp.expiryHours = none →
      generateQRCodeHandler storageDir st uid inp parse bytes now newId =
        (st2, .created resp) →
      resp.qrCode.expiresAt = now + 24 * 3600) ∧
    (∀ hrs, inp.expiryHours = some hrs → 0 < hrs → hrs ≤ 168 →
      ∀ msg, ("expiry_hours", msg) ∉ generateValidationErrors inp parse) := by
  refine ⟨?_, ?_, ?_⟩
  · intro hrs hex hbad
    have hcond : (decide (0 < hrs) && decide (hrs ≤ 168)) = false := by
      rcases Decidable.em (0 < hrs) with h1 | h1 <;>
        rcases Decidable.em (hrs ≤ 168) with h2 | h2 <;>
          simp [h1, h2] at hbad ⊢
    have herr : generateValidationErrors inp parse =
        addError (baseErrors inp parse) "expiry_hours"
          "must be between 1 and 168 hours (7 days)" := by
      unfold generateValidationErrors
      rw [hex]
      simp [vcheck, hcond]
    have hmem : ("expiry_hours", "must be between 1 and 168 hours (7 days)") ∈
        generateValidationErrors inp parse := by
      rw [herr]
      refine addError_mem_self _ _ _ ?_
      intro e he
      rcases baseErrors_keys inp parse e he with h2 | h2 <;> simp [h2]
    refine ⟨?_, hmem⟩
    have hnonempty : (generateValidationErrors inp parse != []) = true := by
      simpa using List.ne_nil_of_mem hmem
    unfold generateQRCodeHandler
    dsimp only
    rw [hnonempty]
    simp
  · intro st2 resp hnone hrun
    unfold generateQRCodeHandler at hrun
    dsimp only at hrun
    by_cases he : (generateValidationErrors inp parse != []) = true
    · rw [he] at hrun
      simp at hrun
    · simp only [Bool.not_eq_true] at he
      rw [he, hnone] at hrun
      simp only [Bool.false_eq_true, if_false, Option.getD_none] at hrun
      rcases hsvc : generateQRCode storageDir st uid ((parse inp.vehicleId).getD 0)
          24 inp.purpose bytes now newId with ⟨st3, r⟩
      rw [hsvc] at hrun
      cases r with
      | error e2 =>
        dsimp only at hrun
        split at hrun <;> simp at hrun
      | ok r2 =>
        dsimp only at hrun
        simp only [Prod.mk.injEq, HandlerResponse.created.injEq] at hrun
        obtain ⟨hst, hresp⟩ := hrun
        subst hst
        subst hresp
        exact (generateQRCode_ok_shape _ _ _ _ _ _ _ _ _ _ _ hsvc).2.2.1
  · intro hrs hex h1 h2 msg hmem
    have hcond : (decide (0 < hrs) && decide (hrs ≤ 168)) = true := by
      simp [h1, h2]
    have herr : generateValidationErrors inp parse = baseErrors inp parse := by
      unfold generateValidationErrors
      rw [hex]
      simp [vcheck, hcond]
    rw [herr] at hmem
    rcases baseErrors_keys inp parse _ hmem with h3 | h3 <;> simp at h3

/-- Witness for C10: an expiry of 200 hours is rejected with the per-field
error and no state change; the happy-path run with no expiry yields a code
expiring 24 hours after time 50; an expiry of 48 hours adds no
`expiry_hours` error. -/
theorem C10_expiry_validation_witness :
    (generateQRCodeHandler "storage/qrcodes" stHappy 1 inpBadExpiry parseSample
        zeros32 50 9 =
      (stHappy, .failedValidation (generateValidationErrors inpBadExpiry parseSample)) ∧
      ("expiry_hours", "must be between 1 and 168 hours (7 days)") ∈
        generateValidationErrors inpBadExpiry parseSample) ∧
    hRespHappy.qrCode.expiresAt = 50 + 24 * 3600 ∧
    ("expiry_hours", "must be between 1 and 168 hours (7 days)") ∉
      generateValidationErrors inpGoodExpiry parseSample :=
  ⟨(C10_expiry_validation "storage/qrcodes" stHappy 1 inpBadExpiry parseSample
      zeros32 50 9).1 200 rfl (by decide),
   (C10_expiry_validation "storage/qrcodes" stHappy 1 inpOk parseSample
      zeros32 50 9).2.1 hRunHappy.1 hRespHappy rfl (by rfl),
   (C10_expiry_validation "storage/qrcodes" stHappy 1 inpGoodExpiry parseSample
      zeros32 50 9).2.2 48 rfl (by decide) (by decide)
     "must be between 1 and 168 hours (7 days)"⟩

end SpotLink
